import Mathlib

/-!
Verification of the wave configuration-reconciliation engine.

Shallow embedding of the repository pusher/wave: the finalizer helpers
(pkg/core/finalizer.go) and the StatefulSet Reconcile entry point are
embedded directly from the Go source; the core Handler (reference
extraction, hash engine, ownership reconciliation, deletion handling),
whose implementation is exercised only through its test suite here, is
modelled from the specification (spec.md §3–§4.6).
-/

namespace Wave

/-- Annotation key on the PodTemplate that holds the configuration hash
(constant `configHashAnnotation` in the source). -/
def ConfigHashAnnKey : String := "wave.pusher.com/config-hash"

/-- Finalizer token added to workloads so wave can perform deletion logic
(constant `finalizerString` in the source). -/
def FinalizerString : String := "wave.pusher.com/finalizer"

/-- Annotation key wave checks for before processing a workload
(constant `requiredAnnotation` in the source). -/
def RequiredAnnKey : String := "wave.pusher.com/update-on-config-change"

/-- Embeds `hasFinalizer` from pkg/core/finalizer.go: scans the finalizer
list for the wave token. -/
def hasFinalizer (finalizers : List String) : Bool :=
  finalizers.any (fun f => f == FinalizerString)

/-- Embeds the observable effect of `addFinalizer` from pkg/core/finalizer.go:
`none` when the token is already present (the Go code returns early without
calling SetFinalizers), otherwise `some` of the list passed to SetFinalizers. -/
def addFinalizerCall (finalizers : List String) : Option (List String) :=
  if finalizers.any (fun f => f == FinalizerString) then none
  else some (finalizers ++ [FinalizerString])

/-- The finalizer list after `addFinalizer` runs. -/
def addFinalizer (finalizers : List String) : List String :=
  match addFinalizerCall finalizers with
  | none => finalizers
  | some l => l

/-- Embeds `removeFinalizer` from pkg/core/finalizer.go: keeps every
finalizer that does not match the wave token, in order. -/
def removeFinalizer (finalizers : List String) : List String :=
  finalizers.filter (fun f => f != FinalizerString)

/-- Kubernetes API error as seen by the Reconcile entry point: the code only
discriminates NotFound from everything else (`errors.IsNotFound`). -/
inductive KErr where
  | notFound : KErr
  | other : String → KErr
deriving DecidableEq

/-- Embeds the `errors.IsNotFound` check used in Reconcile. -/
def KErr.isNotFound : KErr → Bool
  | .notFound => true
  | .other _ => false

/-- Embeds `reconcile.Result`; the code only ever returns the zero value. -/
structure ReconcileResult where
  requeue : Bool
deriving DecidableEq

/-- The zero value `reconcile.Result\x7b\x7d`. -/
def emptyResult : ReconcileResult := ⟨false⟩

/-- Embeds `ReconcileStatefulSet.Reconcile` from the statefulset controller:
fetch the StatefulSet (`get` is the outcome of the client Get); on NotFound
return success with no error; on any other error return it; otherwise pass
the instance to the core handler. -/
def reconcileStatefulSet {α : Type} (get : Except KErr α)
    (handleStatefulSet : α → ReconcileResult × Option KErr) :
    ReconcileResult × Option KErr :=
  match get with
  | .error err => if err.isNotFound then (emptyResult, none) else (emptyResult, some err)
  | .ok inst => handleStatefulSet inst

/-- Modelled from the spec: the two ConfigSource kinds (§3), ConfigMap-like
and Secret-like. -/
inductive ConfigKind where
  | configMap : ConfigKind
  | secret : ConfigKind
deriving DecidableEq

/-- Modelled from the spec: a (kind, name) pair, element of a ReferenceSet (§3). -/
structure ConfigRef where
  kind : ConfigKind
  name : String
deriving DecidableEq

/-- Modelled from the spec: a ConfigSource (§3) with its content mapping and
the set of OwnershipLinks it carries, reduced to the owner UIDs (the owner
kind/name/controller-flag play no role in the claims). -/
structure ConfigSource where
  ref : ConfigRef
  content : List (String × String)
  owners : List String
deriving DecidableEq

/-- Modelled from the spec: an environment variable whose value may be sourced
from a ConfigMap/Secret key reference (§4.2 case c). -/
structure EnvVar where
  name : String
  valueFrom : Option ConfigRef
deriving DecidableEq

/-- Modelled from the spec: a container with env vars, env-from sources and
volume mounts (§3 PodTemplate, §4.2). -/
structure Container where
  name : String
  env : List EnvVar
  envFrom : List ConfigRef
  volumeMounts : List String
deriving DecidableEq

/-- Modelled from the spec: a volume, optionally backed by a ConfigMap-like or
Secret-like source (§3 PodTemplate). -/
structure Volume where
  name : String
  source : Option ConfigRef
deriving DecidableEq

/-- Modelled from the spec: a PodTemplate (§3); its annotation sub-map is the
only part the engine ever mutates. -/
structure PodTemplate where
  containers : List Container
  volumes : List Volume
  annotations : List (String × String)
deriving DecidableEq

/-- Modelled from the spec: a Workload (§3) — identity, annotations, finalizer
list, optional deletion timestamp, UID and pod template. -/
structure Workload where
  name : String
  uid : String
  annotations : List (String × String)
  finalizers : List String
  deletionTimestamp : Option Nat
  podTemplate : PodTemplate
deriving DecidableEq

/-- Looks up an annotation value by key (first matching entry). -/
def lookupAnn (anns : List (String × String)) (k : String) : Option String :=
  match anns.find? (fun e => e.1 == k) with
  | some e => some e.2
  | none => none

/-- Removes every entry with the given key. -/
def removeAnn (anns : List (String × String)) (k : String) : List (String × String) :=
  anns.filter (fun e => e.1 != k)

/-- Sets an annotation key to a value, replacing previous entries. -/
def setAnn (anns : List (String × String)) (k v : String) : List (String × String) :=
  (k, v) :: removeAnn anns k

/-- Resolves a volume-mount name to the backing volume's config source, if any
(§4.2 case a). -/
def volumeSource (vols : List Volume) (mountName : String) : Option ConfigRef :=
  match vols.find? (fun v => v.name == mountName) with
  | some v => v.source
  | none => none

/-- References contributed by one container: mounted config-backed volumes,
env-from sources, and per-variable value sources (§4.2). -/
def containerRefs (vols : List Volume) (c : Container) : List ConfigRef :=
  c.volumeMounts.filterMap (volumeSource vols)
    ++ c.envFrom
    ++ c.env.filterMap (fun e => e.valueFrom)

/-- Modelled from the spec: the Reference Extractor (§4.2) — the handler code
implementing it is exercised only through tests here. Duplicates collapse
(set semantics). -/
def getReferences (pt : PodTemplate) : List ConfigRef :=
  (pt.containers.flatMap (containerRefs pt.volumes)).dedup

/-- Serialization tag of a config kind. -/
def serKind : ConfigKind → String
  | .configMap => "configmap"
  | .secret => "secret"

/-- Serializes one content entry. -/
def serEntry (e : String × String) : String := e.1 ++ "=" ++ e.2

/-- Sorts a list of strings (the mandatory sorting step of §4.3). -/
def sortStrings (l : List String) : List String :=
  List.insertionSort (fun a b => a ≤ b) l

/-- Canonical serialization of a content mapping: entries serialized and
sorted, so map iteration order cannot affect the result (§4.3). -/
def serContent (content : List (String × String)) : String :=
  String.intercalate "," (sortStrings (content.map serEntry))

/-- A (kind, name, content) triple, the unit the Hash Engine consumes (§4.3). -/
abbrev Triple := ConfigKind × String × List (String × String)

/-- Serializes one triple. -/
def serTriple (t : Triple) : String :=
  serKind t.1 ++ "/" ++ t.2.1 ++ ":" ++ serContent t.2.2

/-- Modelled from the spec: the Hash Engine (§4.3) — a pure function of the
sorted sequence of (kind, name, content) triples. The concrete digest
primitive (SHA-256 in the real system, not present under src) is represented
by the canonical serialization of the sorted triple sequence. -/
def calculateConfigHash (triples : List Triple) : String :=
  String.intercalate ";" (sortStrings (triples.map serTriple))

/-- Finds a config source by (kind, name), as the fetch step does. -/
def findConfig (configs : List ConfigSource) (r : ConfigRef) : Option ConfigSource :=
  configs.find? (fun cs => decide (cs.ref = r))

/-- Resolves a reference set against live config sources; a missing object
contributes nothing (§4.3: treat its contribution as absent). -/
def resolveTriples (configs : List ConfigSource) (refs : List ConfigRef) : List Triple :=
  refs.filterMap (fun r =>
    match findConfig configs r with
    | some cs => some (r.kind, r.name, cs.content)
    | none => none)

/-- Appends an OwnershipLink for the UID if absent (§4.4 step 3). -/
def addOwner (uid : String) (cs : ConfigSource) : ConfigSource :=
  if uid ∈ cs.owners then cs else { cs with owners := cs.owners ++ [uid] }

/-- Removes this UID's OwnershipLink, leaving other owners untouched
(§4.4 step 4). -/
def removeOwner (uid : String) (cs : ConfigSource) : ConfigSource :=
  { cs with owners := cs.owners.filter (fun o => o != uid) }

/-- Modelled from the spec: the Ownership Reconciler (§4.4) — every candidate
ConfigSource whose (kind, name) is in the desired set gains this UID's link if
absent; every other candidate has this UID's link removed. -/
def reconcileOwnership (uid : String) (desired : List ConfigRef)
    (configs : List ConfigSource) : List ConfigSource :=
  configs.map (fun cs => if cs.ref ∈ desired then addOwner uid cs else removeOwner uid cs)

/-- Removes this UID's OwnershipLink from every ConfigSource (the cleanup of
§4.5, shared by the Deleting path and Managed→Unmanaged). -/
def removeAllLinks (uid : String) (configs : List ConfigSource) : List ConfigSource :=
  configs.map (removeOwner uid)

/-- The engine-visible cluster state one reconcile invocation acts on: the
workload, all candidate ConfigSources, and the emitted event messages. -/
structure ReconcileState where
  workload : Workload
  configs : List ConfigSource
  events : List String
deriving DecidableEq

/-- Modelled from the spec: `toBeDeleted` (tested in the owner-references
suite but implemented outside src) — true iff the deletion timestamp is
non-nil. -/
def toBeDeleted (w : Workload) : Bool := w.deletionTimestamp.isSome

/-- True when the workload carries the opt-in marker with value "true" (§6). -/
def hasRequiredAnn (w : Workload) : Bool :=
  lookupAnn w.annotations RequiredAnnKey == some "true"

/-- Modelled from the spec: `handleDelete` (§4.5 Deleting path) — remove every
OwnershipLink this UID holds on any ConfigSource, then remove the finalizer
token. -/
def handleDelete (s : ReconcileState) : ReconcileState :=
  { workload := { s.workload with finalizers := removeFinalizer s.workload.finalizers },
    configs := removeAllLinks s.workload.uid s.configs,
    events := s.events }

/-- Removes the fingerprint annotation from the pod template (§4.6 step 3:
ensure no fingerprint annotation remains). -/
def removeTemplateHashAnn (s : ReconcileState) : ReconcileState :=
  let pt := s.workload.podTemplate
  let pt' := { pt with annotations := removeAnn pt.annotations ConfigHashAnnKey }
  { s with workload := { s.workload with podTemplate := pt' } }

/-- The human-readable change-notification message (§6). -/
def eventMessage (digest : String) : String :=
  "Configuration hash updated to " ++ digest

/-- Modelled from the spec: the managed path of the Reconcile Orchestrator
(§4.6 step 4) — ensure the finalizer, reconcile ownership, compute the hash
over the resolved reference set, and if it differs from the stored fingerprint
write it and emit one change notification. -/
def handleUpdate (s : ReconcileState) : ReconcileState :=
  let w := s.workload
  let fins := addFinalizer w.finalizers
  let desired := getReferences w.podTemplate
  let configs := reconcileOwnership w.uid desired s.configs
  let newHash := calculateConfigHash (resolveTriples s.configs desired)
  let pt' := { w.podTemplate with
    annotations := setAnn w.podTemplate.annotations ConfigHashAnnKey newHash }
  if lookupAnn w.podTemplate.annotations ConfigHashAnnKey == some newHash then
    { workload := { w with finalizers := fins }, configs := configs, events := s.events }
  else
    { workload := { w with finalizers := fins, podTemplate := pt' },
      configs := configs,
      events := s.events ++ [eventMessage newHash] }

/-- Modelled from the spec: the Reconcile Orchestrator (§4.6) — deletion check
first (short-circuits all other work, §4.5), then the opt-in marker decides
between the managed path and Managed→Unmanaged cleanup. -/
def reconcile (s : ReconcileState) : ReconcileState :=
  if toBeDeleted s.workload then
    if hasFinalizer s.workload.finalizers then handleDelete s else s
  else if hasRequiredAnn s.workload then
    handleUpdate s
  else
    removeTemplateHashAnn
      (if hasFinalizer s.workload.finalizers then handleDelete s else s)

/-- Removes the opt-in marker annotation from a workload. -/
def removeMarker (w : Workload) : Workload :=
  { w with annotations := removeAnn w.annotations RequiredAnnKey }

/-- The fingerprint a reconcile invocation computes for a state: the hash of
the reference set resolved against the live config sources (§4.6 step 4). -/
def currentHash (s : ReconcileState) : String :=
  calculateConfigHash (resolveTriples s.configs (getReferences s.workload.podTemplate))

/-- The state after the user removes the opt-in marker from the workload. -/
def disabledState (s : ReconcileState) : ReconcileState :=
  { s with workload := removeMarker s.workload }

/-- A concrete (kind, name) reference to a ConfigMap, for witnesses. -/
def exampleRef1 : ConfigRef := ⟨ConfigKind.configMap, "example1"⟩

/-- A concrete (kind, name) reference to a Secret, for witnesses. -/
def exampleRef2 : ConfigRef := ⟨ConfigKind.secret, "example2"⟩

/-- A concrete pod template mounting `example1` and env-from-ing `example2`. -/
def exampleTemplate : PodTemplate :=
  { containers := [⟨"container1", [], [exampleRef2], ["vol1"]⟩],
    volumes := [⟨"vol1", some exampleRef1⟩],
    annotations := [] }

/-- A concrete workload carrying the opt-in marker. -/
def exampleWorkload : Workload :=
  { name := "example", uid := "uid-1",
    annotations := [(RequiredAnnKey, "true")],
    finalizers := [],
    deletionTimestamp := none,
    podTemplate := exampleTemplate }

/-- Concrete config sources: two referenced (one already partly linked) and one
unreferenced but stale-linked. -/
def exampleConfigs : List ConfigSource :=
  [⟨exampleRef1, [("key1", "v1")], []⟩,
   ⟨exampleRef2, [("key1", "v2")], ["uid-1", "other-uid"]⟩,
   ⟨⟨ConfigKind.configMap, "unreferenced"⟩, [], ["uid-1"]⟩]

/-- A concrete managed reconcile state, for witnesses. -/
def exampleState : ReconcileState :=
  { workload := exampleWorkload, configs := exampleConfigs, events := [] }

/-- A concrete state marked for deletion with the finalizer present. -/
def exampleDeletedState : ReconcileState :=
  { workload := { exampleWorkload with
      deletionTimestamp := some 1,
      finalizers := [FinalizerString, "keep.me.around/finalizer"] },
    configs := exampleConfigs,
    events := [] }

/-- A concrete state without the marker and without the finalizer. -/
def examplePlainState : ReconcileState :=
  { workload := { exampleWorkload with annotations := [] },
    configs := exampleConfigs,
    events := [] }

/-- A concrete hash-engine input triple. -/
def tripleA : Triple := (ConfigKind.configMap, "example1", [("key1", "v1")])

/-- Another concrete hash-engine input triple. -/
def tripleB : Triple := (ConfigKind.secret, "example2", [("key1", "v2")])

/-- Sorting is insensitive to the input order: permuted inputs sort equal. -/
theorem sortStrings_eq_of_perm {l₁ l₂ : List String} (h : l₁.Perm l₂) :
    sortStrings l₁ = sortStrings l₂ := by
  have p : (sortStrings l₁).Perm (sortStrings l₂) :=
    (List.perm_insertionSort _ l₁).trans (h.trans (List.perm_insertionSort _ l₂).symm)
  exact List.eq_of_perm_of_sorted p
    (List.sorted_insertionSort _ l₁) (List.sorted_insertionSort _ l₂)

/-- C1: for every fixed multiset of (kind, name, content) triples, the Hash
Engine returns the same fingerprint regardless of the order in which the
objects are discovered or iterated; in particular two runs over identical
content produce identical output, so any observed digest (e.g. the example
StatefulSet's fixed digest) recurs on every run over the same content. -/
theorem calculateConfigHash_deterministic (l₁ l₂ : List Triple) (h : l₁.Perm l₂) :
    calculateConfigHash l₁ = calculateConfigHash l₂ := by
  unfold calculateConfigHash
  rw [sortStrings_eq_of_perm (h.map serTriple)]

/-- Witness for C1: two concrete discovery orders of the same triple multiset
hash identically. -/
theorem calculateConfigHash_deterministic_witness :
    ([tripleA, tripleB] : List Triple).Perm [tripleB, tripleA]
    ∧ calculateConfigHash [tripleA, tripleB] = calculateConfigHash [tripleB, tripleA] :=
  ⟨List.Perm.swap tripleB tripleA [],
   calculateConfigHash_deterministic _ _ (List.Perm.swap tripleB tripleA [])⟩

/-- C5: removeFinalizer removes exactly the occurrences of the wave token
(none remain, every other string keeps its multiplicity, and the survivors
are a sublist of the original, hence in original relative order); addFinalizer
leaves the list unchanged when the token is present and otherwise only
appends the token at the end. -/
theorem finalizer_frame (l : List String) :
    FinalizerString ∉ removeFinalizer l
    ∧ (∀ f, f ≠ FinalizerString → (removeFinalizer l).count f = l.count f)
    ∧ (removeFinalizer l).Sublist l
    ∧ (hasFinalizer l = true → addFinalizer l = l)
    ∧ (hasFinalizer l = false → addFinalizer l = l ++ [FinalizerString]) := by
  refine ⟨?_, ?_, ?_, ?_, ?_⟩
  · simp [removeFinalizer]
  · intro f hf
    exact List.count_filter (by simp [hf])
  · exact List.filter_sublist l
  · intro h
    simp only [hasFinalizer] at h
    simp [addFinalizer, addFinalizerCall, h]
  · intro h
    simp only [hasFinalizer] at h
    simp [addFinalizer, addFinalizerCall, h]

/-- Witness for C5: a list already holding the token is returned unchanged by
addFinalizer. -/
theorem finalizer_frame_witness :
    hasFinalizer ["keep.me.around/finalizer", FinalizerString] = true
    ∧ addFinalizer ["keep.me.around/finalizer", FinalizerString]
        = ["keep.me.around/finalizer", FinalizerString] :=
  ⟨by decide, (finalizer_frame _).2.2.2.1 (by decide)⟩

/-- The token is present after addFinalizer runs. -/
theorem hasFinalizer_addFinalizer (l : List String) :
    hasFinalizer (addFinalizer l) = true := by
  by_cases h : l.any (fun f => f == FinalizerString)
  · simp [addFinalizer, addFinalizerCall, h, hasFinalizer]
  · simp only [Bool.not_eq_true] at h
    simp [addFinalizer, addFinalizerCall, h, hasFinalizer]

/-- The token is absent after removeFinalizer runs. -/
theorem hasFinalizer_removeFinalizer (l : List String) :
    hasFinalizer (removeFinalizer l) = false := by
  simp [hasFinalizer, removeFinalizer, List.any_eq_true, List.mem_filter]

/-- C10: after addFinalizer the token is present, after removeFinalizer it is
absent, and addFinalizer on a list already holding the token performs no
mutation (SetFinalizers is not called and the list is unchanged), so it is
idempotent. -/
theorem finalizer_algebra (l : List String) :
    hasFinalizer (addFinalizer l) = true
    ∧ hasFinalizer (removeFinalizer l) = false
    ∧ (hasFinalizer l = true → addFinalizerCall l = none ∧ addFinalizer l = l) := by
  refine ⟨hasFinalizer_addFinalizer l, hasFinalizer_removeFinalizer l, ?_⟩
  intro h
  simp only [hasFinalizer] at h
  simp [addFinalizerCall, addFinalizer, h]

/-- Witness for C10: on a list already holding the token, SetFinalizers is not
called. -/
theorem finalizer_algebra_witness :
    hasFinalizer [FinalizerString] = true
    ∧ addFinalizerCall [FinalizerString] = none :=
  ⟨by decide, ((finalizer_algebra [FinalizerString]).2.2 (by decide)).1⟩

/-- C6: a NotFound fetch yields success with no error and no further work (the
result never consults the handler); any other fetch error is returned to the
caller. -/
theorem reconcile_fetch_error {α : Type} (h₁ h₂ : α → ReconcileResult × Option KErr)
    (e : KErr) :
    reconcileStatefulSet (Except.error KErr.notFound) h₁ = (emptyResult, none)
    ∧ (e.isNotFound = false →
        reconcileStatefulSet (Except.error e) h₁ = (emptyResult, some e))
    ∧ reconcileStatefulSet (Except.error e) h₁ = reconcileStatefulSet (Except.error e) h₂ := by
  refine ⟨rfl, ?_, ?_⟩
  · intro h
    simp [reconcileStatefulSet, h]
  · cases e <;> rfl

/-- Witness for C6: a concrete non-NotFound error is passed back unchanged. -/
theorem reconcile_fetch_error_witness :
    (KErr.other "boom").isNotFound = false
    ∧ reconcileStatefulSet (Except.error (KErr.other "boom"))
        (fun _ : Unit => (emptyResult, none)) = (emptyResult, some (KErr.other "boom")) :=
  ⟨rfl, (reconcile_fetch_error (fun _ : Unit => (emptyResult, none))
    (fun _ => (emptyResult, none)) (KErr.other "boom")).2.1 rfl⟩

/-- C8: toBeDeleted is true exactly when the deletion timestamp is non-nil,
and false whenever it is nil. -/
theorem toBeDeleted_iff_deletionTimestamp (w : Workload) :
    (toBeDeleted w = true ↔ w.deletionTimestamp ≠ none)
    ∧ (w.deletionTimestamp = none → toBeDeleted w = false) := by
  constructor
  · simp [toBeDeleted, Option.isSome_iff_ne_none]
  · intro h
    simp [toBeDeleted, h]

/-- Witness for C8: the example workload has no deletion timestamp and is not
to be deleted. -/
theorem toBeDeleted_iff_deletionTimestamp_witness :
    exampleWorkload.deletionTimestamp = none ∧ toBeDeleted exampleWorkload = false :=
  ⟨rfl, (toBeDeleted_iff_deletionTimestamp exampleWorkload).2 rfl⟩

/-- addOwner does not change the (kind, name) of a config source. -/
theorem addOwner_ref (uid : String) (cs : ConfigSource) :
    (addOwner uid cs).ref = cs.ref := by
  unfold addOwner
  split <;> rfl

/-- removeOwner does not change the (kind, name) of a config source. -/
theorem removeOwner_ref (uid : String) (cs : ConfigSource) :
    (removeOwner uid cs).ref = cs.ref := rfl

/-- The UID is linked after addOwner. -/
theorem mem_addOwner (uid : String) (cs : ConfigSource) :
    uid ∈ (addOwner uid cs).owners := by
  unfold addOwner
  split
  · assumption
  · simp

/-- The UID is unlinked after removeOwner. -/
theorem not_mem_removeOwner (uid : String) (cs : ConfigSource) :
    uid ∉ (removeOwner uid cs).owners := by
  simp [removeOwner, List.mem_filter]

/-- After ownership reconciliation, a config source carries the UID's link
exactly when its (kind, name) is in the desired reference set. -/
theorem reconcileOwnership_spec (uid : String) (desired : List ConfigRef)
    (configs : List ConfigSource) :
    ∀ cs ∈ reconcileOwnership uid desired configs,
      (uid ∈ cs.owners ↔ cs.ref ∈ desired) := by
  intro cs hcs
  simp only [reconcileOwnership, List.mem_map] at hcs
  obtain ⟨cs₀, _, rfl⟩ := hcs
  by_cases h : cs₀.ref ∈ desired
  · rw [if_pos h, addOwner_ref]
    exact iff_of_true (mem_addOwner uid cs₀) h
  · rw [if_neg h, removeOwner_ref]
    exact iff_of_false (not_mem_removeOwner uid cs₀) h

/-- After the §4.5 cleanup, no config source carries the UID's link. -/
theorem removeAllLinks_not_mem (uid : String) (configs : List ConfigSource) :
    ∀ cs ∈ removeAllLinks uid configs, uid ∉ cs.owners := by
  intro cs hcs
  simp only [removeAllLinks, List.mem_map] at hcs
  obtain ⟨cs₀, _, rfl⟩ := hcs
  exact not_mem_removeOwner uid cs₀

/-- The managed path leaves the finalizer list as addFinalizer does. -/
theorem handleUpdate_finalizers (s : ReconcileState) :
    (handleUpdate s).workload.finalizers = addFinalizer s.workload.finalizers := by
  simp only [handleUpdate]
  split <;> rfl

/-- The managed path reconciles ownership over all candidate config sources. -/
theorem handleUpdate_configs (s : ReconcileState) :
    (handleUpdate s).configs
      = reconcileOwnership s.workload.uid (getReferences s.workload.podTemplate) s.configs := by
  simp only [handleUpdate]
  split <;> rfl

/-- The managed path does not touch the workload UID. -/
theorem handleUpdate_uid (s : ReconcileState) :
    (handleUpdate s).workload.uid = s.workload.uid := by
  simp only [handleUpdate]
  split <;> rfl

/-- The managed path does not touch the deletion timestamp. -/
theorem handleUpdate_deletionTimestamp (s : ReconcileState) :
    (handleUpdate s).workload.deletionTimestamp = s.workload.deletionTimestamp := by
  simp only [handleUpdate]
  split <;> rfl

/-- Setting an annotation makes it the looked-up value. -/
theorem lookupAnn_setAnn_self (anns : List (String × String)) (k v : String) :
    lookupAnn (setAnn anns k v) k = some v := by
  unfold lookupAnn setAnn
  rw [List.find?_cons_of_pos _ (by simp)]

/-- Removing an annotation key makes lookups of it fail. -/
theorem lookupAnn_removeAnn_self (anns : List (String × String)) (k : String) :
    lookupAnn (removeAnn anns k) k = none := by
  unfold lookupAnn
  have h : (removeAnn anns k).find? (fun e => e.1 == k) = none := by
    rw [List.find?_eq_none]
    intro e he
    simp only [removeAnn, List.mem_filter] at he
    simpa using he.2
  rw [h]

/-- With the marker present and no deletion pending, reconcile runs the
managed path. -/
theorem reconcile_managed (s : ReconcileState)
    (hm : hasRequiredAnn s.workload = true)
    (hd : toBeDeleted s.workload = false) :
    reconcile s = handleUpdate s := by
  simp [reconcile, hd, hm]

/-- With a deletion pending and the finalizer present, reconcile runs the
Deleting path. -/
theorem reconcile_deleting (s : ReconcileState)
    (hd : toBeDeleted s.workload = true)
    (hf : hasFinalizer s.workload.finalizers = true) :
    reconcile s = handleDelete s := by
  simp [reconcile, hd, hf]

/-- Without the marker, not deleting, finalizer present: reconcile runs the
Managed→Unmanaged cleanup followed by fingerprint-annotation removal. -/
theorem reconcile_unmanaged (s : ReconcileState)
    (hm : hasRequiredAnn s.workload = false)
    (hd : toBeDeleted s.workload = false)
    (hf : hasFinalizer s.workload.finalizers = true) :
    reconcile s = removeTemplateHashAnn (handleDelete s) := by
  simp [reconcile, hd, hm, hf]

/-- C2: after reconcile settles on a marked, non-deleting workload, a config
source carries an ownership link to the workload if and only if it is
reachable from the workload's current pod template via the Reference
Extractor — newly referenced objects gain the link, no-longer-referenced
objects lose it. -/
theorem ownership_convergence (s : ReconcileState)
    (hm : hasRequiredAnn s.workload = true)
    (hd : toBeDeleted s.workload = false) :
    ∀ cs ∈ (reconcile s).configs,
      (s.workload.uid ∈ cs.owners ↔ cs.ref ∈ getReferences s.workload.podTemplate) := by
  rw [reconcile_managed s hm hd, handleUpdate_configs s]
  exact reconcileOwnership_spec _ _ _

/-- Witness for C2: the example state (one newly referenced ConfigMap, one
already-linked Secret, one stale-linked ConfigMap) converges. -/
theorem ownership_convergence_witness :
    hasRequiredAnn exampleState.workload = true
    ∧ toBeDeleted exampleState.workload = false
    ∧ ∀ cs ∈ (reconcile exampleState).configs,
        (exampleState.workload.uid ∈ cs.owners
          ↔ cs.ref ∈ getReferences exampleState.workload.podTemplate) :=
  ⟨by decide, rfl, ownership_convergence exampleState (by decide) rfl⟩

/-- C3: when a workload carrying the finalizer token is marked for deletion,
reconcile runs handleDelete, which removes the workload's ownership link from
every config source and removes the finalizer token, for every set of
previously linked children. -/
theorem handleDelete_cleanup (s : ReconcileState)
    (hd : toBeDeleted s.workload = true)
    (hf : hasFinalizer s.workload.finalizers = true) :
    reconcile s = handleDelete s
    ∧ (∀ cs ∈ (reconcile s).configs, s.workload.uid ∉ cs.owners)
    ∧ hasFinalizer (reconcile s).workload.finalizers = false := by
  have h := reconcile_deleting s hd hf
  refine ⟨h, ?_, ?_⟩
  · rw [h]
    exact removeAllLinks_not_mem _ _
  · rw [h]
    exact hasFinalizer_removeFinalizer _

/-- Witness for C3: the example deleted state (finalizer plus an unrelated
finalizer, three children, two of them linked) is cleaned up. -/
theorem handleDelete_cleanup_witness :
    toBeDeleted exampleDeletedState.workload = true
    ∧ hasFinalizer exampleDeletedState.workload.finalizers = true
    ∧ (∀ cs ∈ (reconcile exampleDeletedState).configs,
        exampleDeletedState.workload.uid ∉ cs.owners)
    ∧ hasFinalizer (reconcile exampleDeletedState).workload.finalizers = false :=
  ⟨rfl, by decide,
   (handleDelete_cleanup exampleDeletedState rfl (by decide)).2.1,
   (handleDelete_cleanup exampleDeletedState rfl (by decide)).2.2⟩

/-- After the managed path the fingerprint annotation is present on the pod
template (either it already matched or it was just written). -/
theorem handleUpdate_hash_isSome (s : ReconcileState) :
    (lookupAnn (handleUpdate s).workload.podTemplate.annotations
        ConfigHashAnnKey).isSome = true := by
  simp only [handleUpdate]
  split
  · rename_i h
    rw [beq_iff_eq] at h
    simp [h]
  · simp [lookupAnn_setAnn_self]

/-- Removing the opt-in marker disables the engine for the workload. -/
theorem hasRequiredAnn_removeMarker (w : Workload) :
    hasRequiredAnn (removeMarker w) = false := by
  simp [hasRequiredAnn, removeMarker, lookupAnn_removeAnn_self]

/-- Removing an absent annotation key leaves the mapping unchanged. -/
theorem removeAnn_eq_self (anns : List (String × String)) (k : String)
    (h : lookupAnn anns k = none) : removeAnn anns k = anns := by
  unfold removeAnn
  rw [List.filter_eq_self]
  intro e he
  unfold lookupAnn at h
  cases hf : anns.find? (fun e => e.1 == k) with
  | some e' => rw [hf] at h; exact absurd h (by simp)
  | none =>
    have hne := List.find?_eq_none.mp hf e he
    simpa using hne

/-- Ensuring no fingerprint annotation remains is a no-op when none is
present. -/
theorem removeTemplateHashAnn_of_none (s : ReconcileState)
    (h : lookupAnn s.workload.podTemplate.annotations ConfigHashAnnKey = none) :
    removeTemplateHashAnn s = s := by
  have h2 := removeAnn_eq_self _ _ h
  simp only [removeTemplateHashAnn, h2]

/-- Event emission of the managed path: no event when the stored fingerprint
already matches, exactly one change-notification event (and the new stored
fingerprint) when it does not. -/
theorem handleUpdate_events (s : ReconcileState) :
    (lookupAnn s.workload.podTemplate.annotations ConfigHashAnnKey
        = some (currentHash s) → (handleUpdate s).events = s.events)
    ∧ (lookupAnn s.workload.podTemplate.annotations ConfigHashAnnKey
        ≠ some (currentHash s) →
        (handleUpdate s).events = s.events ++ [eventMessage (currentHash s)]
        ∧ lookupAnn (handleUpdate s).workload.podTemplate.annotations
            ConfigHashAnnKey = some (currentHash s)) := by
  have hc : currentHash s
      = calculateConfigHash (resolveTriples s.configs (getReferences s.workload.podTemplate)) := rfl
  constructor
  · intro h
    simp only [handleUpdate]
    split
    · rfl
    · rename_i hneg
      rw [hc] at h
      exact absurd (beq_iff_eq.mpr h) hneg
  · intro h
    simp only [handleUpdate]
    split
    · rename_i hpos
      rw [beq_iff_eq] at hpos
      rw [← hc] at hpos
      exact absurd hpos h
    · exact ⟨by rw [hc], by rw [hc]; exact lookupAnn_setAnn_self _ _ _⟩

/-- C4: adding the opt-in marker causes, once settled, the finalizer token on
the workload and a fingerprint annotation on its pod template; subsequently
removing the marker removes every ownership link the workload held, removes
the finalizer token, and leaves no fingerprint annotation. -/
theorem enable_disable_symmetry (s : ReconcileState)
    (hm : hasRequiredAnn s.workload = true)
    (hd : toBeDeleted s.workload = false) :
    hasFinalizer (reconcile s).workload.finalizers = true
    ∧ (lookupAnn (reconcile s).workload.podTemplate.annotations
        ConfigHashAnnKey).isSome = true
    ∧ (∀ cs ∈ (reconcile (disabledState (reconcile s))).configs,
        s.workload.uid ∉ cs.owners)
    ∧ hasFinalizer (reconcile (disabledState (reconcile s))).workload.finalizers = false
    ∧ lookupAnn (reconcile (disabledState (reconcile s))).workload.podTemplate.annotations
        ConfigHashAnnKey = none := by
  have h1 := reconcile_managed s hm hd
  have hfin : hasFinalizer (reconcile s).workload.finalizers = true := by
    rw [h1, handleUpdate_finalizers]
    exact hasFinalizer_addFinalizer _
  have htm : hasRequiredAnn (disabledState (reconcile s)).workload = false :=
    hasRequiredAnn_removeMarker _
  have htd : toBeDeleted (disabledState (reconcile s)).workload = false := by
    show ((reconcile s).workload.deletionTimestamp).isSome = false
    rw [h1, handleUpdate_deletionTimestamp]
    exact hd
  have hft : hasFinalizer (disabledState (reconcile s)).workload.finalizers = true := hfin
  have h2 := reconcile_unmanaged _ htm htd hft
  have huid : (disabledState (reconcile s)).workload.uid = s.workload.uid := by
    show (reconcile s).workload.uid = s.workload.uid
    rw [h1]
    exact handleUpdate_uid s
  refine ⟨hfin, ?_, ?_, ?_, ?_⟩
  · rw [h1]
    exact handleUpdate_hash_isSome s
  · rw [h2]
    intro cs hcs
    rw [← huid]
    exact removeAllLinks_not_mem _ _ cs hcs
  · rw [h2]
    exact hasFinalizer_removeFinalizer _
  · rw [h2]
    exact lookupAnn_removeAnn_self _ _

/-- Witness for C4: the example marked state gains the finalizer, and after
the marker is removed a further reconcile clears it again. -/
theorem enable_disable_symmetry_witness :
    hasRequiredAnn exampleState.workload = true
    ∧ toBeDeleted exampleState.workload = false
    ∧ hasFinalizer (reconcile exampleState).workload.finalizers = true
    ∧ hasFinalizer
        (reconcile (disabledState (reconcile exampleState))).workload.finalizers = false :=
  ⟨by decide, rfl, (enable_disable_symmetry exampleState (by decide) rfl).1,
   (enable_disable_symmetry exampleState (by decide) rfl).2.2.2.1⟩

/-- C7: a workload without the opt-in marker and without the finalizer token
is untouched by reconcile — no ownership links are added to any config
source, no finalizer token is added, and no fingerprint annotation is
written (when none was present, the state is wholly unchanged). -/
theorem unmanaged_noop (s : ReconcileState)
    (hm : hasRequiredAnn s.workload = false)
    (hf : hasFinalizer s.workload.finalizers = false) :
    (reconcile s).configs = s.configs
    ∧ (reconcile s).workload.finalizers = s.workload.finalizers
    ∧ (lookupAnn s.workload.podTemplate.annotations ConfigHashAnnKey = none →
        reconcile s = s) := by
  by_cases hd : toBeDeleted s.workload = true
  · have h : reconcile s = s := by simp [reconcile, hd, hf]
    rw [h]
    exact ⟨rfl, rfl, fun _ => rfl⟩
  · rw [Bool.not_eq_true] at hd
    have h : reconcile s = removeTemplateHashAnn s := by
      simp [reconcile, hd, hm, hf]
    rw [h]
    exact ⟨rfl, rfl, fun hh => removeTemplateHashAnn_of_none s hh⟩

/-- Witness for C7: the plain example state (no marker, no finalizer, no
fingerprint annotation) reconciles to itself. -/
theorem unmanaged_noop_witness :
    hasRequiredAnn examplePlainState.workload = false
    ∧ hasFinalizer examplePlainState.workload.finalizers = false
    ∧ reconcile examplePlainState = examplePlainState :=
  ⟨rfl, rfl, (unmanaged_noop examplePlainState rfl rfl).2.2 rfl⟩

/-- C9: on a successful fingerprint update (the stored hash annotation
changes) the engine emits exactly one event whose message is
"Configuration hash updated to <digest>" with <digest> the new hex digest,
and stores that digest; when the fingerprint does not change, no event is
emitted. -/
theorem hash_update_event (s : ReconcileState)
    (hm : hasRequiredAnn s.workload = true)
    (hd : toBeDeleted s.workload = false) :
    (lookupAnn s.workload.podTemplate.annotations ConfigHashAnnKey
        ≠ some (currentHash s) →
        (reconcile s).events = s.events ++ [eventMessage (currentHash s)]
        ∧ lookupAnn (reconcile s).workload.podTemplate.annotations
            ConfigHashAnnKey = some (currentHash s))
    ∧ (lookupAnn s.workload.podTemplate.annotations ConfigHashAnnKey
        = some (currentHash s) →
        (reconcile s).events = s.events) := by
  rw [reconcile_managed s hm hd]
  exact ⟨(handleUpdate_events s).2, (handleUpdate_events s).1⟩

/-- Witness for C9: the example state stores no fingerprint yet, so the
reconcile appends exactly the change-notification event. -/
theorem hash_update_event_witness :
    lookupAnn exampleState.workload.podTemplate.annotations ConfigHashAnnKey = none
    ∧ (reconcile exampleState).events
        = exampleState.events ++ [eventMessage (currentHash exampleState)] :=
  ⟨rfl,
   ((hash_update_event exampleState (by decide) rfl).1
     (by simp [show lookupAnn exampleState.workload.podTemplate.annotations
         ConfigHashAnnKey = none from rfl])).1⟩

end Wave
